import Mathlib

/-!
Verification of the web_scraper repository (scrape.py) against its
specification.  The Python source is shallowly embedded: pure string
manipulation is modelled by structural functions on `List Char`, the
HTTP session and the local filesystem are explicit parameters, regex
compilation (the external `re` library) is a parameter `cs`, and the
recursive crawl carries a fuel argument because the source has no cycle
detection or depth bound.
-/

namespace WebScraper

/-! ### Models of the Python string methods used by scrape.py -/

/-- Model of `s.startswith(pre)`. -/
def strStartsWith (s pre : String) : Bool :=
  pre.data.isPrefixOf s.data

/-- Model of `s.endswith(suf)`. -/
def strEndsWith (s suf : String) : Bool :=
  suf.data.reverse.isPrefixOf s.data.reverse

/-- Model of `s.strip()` (drop leading and trailing whitespace). -/
def strTrim (s : String) : String :=
  ⟨((s.data.dropWhile Char.isWhitespace).reverse.dropWhile Char.isWhitespace).reverse⟩

/-- Split a character list at every occurrence of the character `c`. -/
def splitOnCharGo (c : Char) : List Char → List Char → List (List Char)
  | [], acc => [acc.reverse]
  | x :: rest, acc =>
    if x = c then acc.reverse :: splitOnCharGo c rest []
    else splitOnCharGo c rest (x :: acc)

/-- Model of `s.split(c)` for a one-character separator. -/
def strSplitOnChar (c : Char) (s : String) : List String :=
  (splitOnCharGo c s.data []).map (fun l => ⟨l⟩)

/-- Replace occurrences of `pat` by `rep`; `skip` counts characters still
belonging to an already replaced occurrence.  Structural on the list. -/
def replaceSubGo (pat rep : List Char) : Nat → List Char → List Char
  | _, [] => []
  | n + 1, _ :: rest => replaceSubGo pat rep n rest
  | 0, c :: rest =>
    if !pat.isEmpty && pat.isPrefixOf (c :: rest) then
      rep ++ replaceSubGo pat rep (pat.length - 1) rest
    else c :: replaceSubGo pat rep 0 rest

/-- Model of `s.replace(pat, rep)` (all occurrences; `pat` nonempty at
every call site in the source). -/
def strReplace (s pat rep : String) : String :=
  ⟨replaceSubGo pat.data rep.data 0 s.data⟩

/-- Find the first occurrence of the nonempty pattern `pat`, returning
the part before it and the part after it. -/
def breakOnSub (pat : List Char) : List Char → Option (List Char × List Char)
  | [] => none
  | c :: rest =>
    if pat.isPrefixOf (c :: rest) then some ([], (c :: rest).drop pat.length)
    else
      match breakOnSub pat rest with
      | some (pre, post) => some (c :: pre, post)
      | none => none

/-- Join a list of strings with a separator. -/
def joinWith (sep : String) : List String → String
  | [] => ""
  | [x] => x
  | x :: y :: rest => x ++ sep ++ joinWith sep (y :: rest)

/-! ### Models of urllib.parse helpers -/

/-- The three components of `urllib.parse.urlsplit` that scrape.py uses. -/
structure SplitResult where
  scheme : String
  netloc : String
  path : String
deriving DecidableEq

/-- Model of `urllib.parse.urlsplit` for the URL shapes reaching it:
an absolute `scheme://netloc/path` URL, or a scheme-less remainder. -/
def urlsplit (url : String) : SplitResult :=
  match breakOnSub "://".data url.data with
  | none => { scheme := "", netloc := "", path := url }
  | some (pre, post) =>
    { scheme := ⟨pre⟩
      netloc := ⟨post.takeWhile (fun c => c != '/')⟩
      path := ⟨post.dropWhile (fun c => c != '/')⟩ }

/-- The portion of `base` up to and including the last slash. -/
def urlDirOf (base : String) : String :=
  ⟨(base.data.reverse.dropWhile (fun c => c != '/')).reverse⟩

/-- Model of `urllib.parse.urljoin` for the reference shapes produced by
`find_download_links`: an empty reference resolves to the base itself,
an absolute reference replaces the base, a root-relative reference is
attached to the authority, and a relative reference is attached to the
base directory. -/
def urljoin (base ref : String) : String :=
  if ref = "" then base
  else if strStartsWith ref "http" then ref
  else if strStartsWith ref "/" then
    (urlsplit base).scheme ++ "://" ++ (urlsplit base).netloc ++ ref
  else urlDirOf base ++ ref

/-! ### The websync object (scrape.py lines 80-121) -/

/-- Model of a compiled regular expression: `p ref` is the truthiness of
`p.match(ref)`, re.match being anchored at position 0 of `ref`. -/
def Pattern : Type := String → Bool

/-- An argument acceptable to `re.compile`: a pattern string or an
already compiled pattern (which `re.compile` returns unchanged). -/
inductive ReArg where
  | fromStr (s : String)
  | fromPat (p : Pattern)

/-- Model of `re.compile`, parameterized by the external string compiler
`cs`; on an already compiled pattern it is the identity. -/
def reCompile (cs : String → Pattern) : ReArg → Pattern
  | .fromStr s => cs s
  | .fromPat p => p

/-- The `exclude_match` / `include_match` property setter
(scrape.py lines 105-121): None stays None, anything else is passed to
`re.compile`. -/
def matchSetter (cs : String → Pattern) : Option ReArg → Option Pattern
  | none => none
  | some a => some (reCompile cs a)

/-- State of a `websync` instance.  `__init__` (scrape.py lines 81-99)
accepts an `update_existing` argument but never assigns
`self.update_existing`, so the structure deliberately has no such
field: reading it in `cp` fails. -/
structure Websync where
  return_links : List String
  base_url : String
  download_location : String
  exclude_match : Option Pattern
  include_match : Option Pattern
  recursive : Bool
  no_parents : Bool

/-- Model of `websync.__init__` (scrape.py lines 81-99). -/
def websyncInit (cs : String → Pattern) (url download_location : String)
    (regex_exclude regex_include : Option ReArg)
    (recursive no_parents : Bool) : Websync :=
  { return_links := []
    base_url := url
    download_location := download_location
    exclude_match := matchSetter cs regex_exclude
    include_match := matchSetter cs regex_include
    recursive := recursive
    no_parents := no_parents }

/-- The child crawler spawned for a directory reference
(scrape.py lines 148-151): only the url and the two compiled patterns
are passed, every other constructor argument keeps its default. -/
def childWebsync (cs : String → Pattern) (w : Websync) (sub_url : String) : Websync :=
  websyncInit cs sub_url "./"
    (w.exclude_match.map ReArg.fromPat)
    (w.include_match.map ReArg.fromPat)
    true false

/-! ### Link discovery (scrape.py lines 123-171) -/

/-- Result of `session.get` on a listing page, with the body already
parsed into the attribute lists of its anchor tags (the `HTMLParser`
base class calls `handle_starttag` once per tag and only `a` tags are
processed).  `netError` covers `requests` ConnectionError and Timeout,
the two exceptions `ls` catches. -/
inductive FetchResult where
  | response (status : Nat) (anchors : List (List (String × String)))
  | netError
deriving DecidableEq

/-- The remote site: what fetching each URL yields. -/
def Site : Type := String → FetchResult

/-- Truthiness of `self.exclude_match is not None and
self.exclude_match.match(v)` (scrape.py lines 137-138). -/
def excludeHit (w : Websync) (v : String) : Bool :=
  match w.exclude_match with
  | some p => p v
  | none => false

/-- Truthiness of `self.include_match is None or
self.include_match.match(v)` (scrape.py lines 155-156). -/
def includeOk (w : Websync) (v : String) : Bool :=
  match w.include_match with
  | some p => p v
  | none => true

/-- The links one attribute pair of an anchor contributes in
`find_download_links` (scrape.py lines 136-158); `recurse` stands for
spawning a child crawler and running `ls` on it. -/
def attrContrib (recurse : String → List String) (w : Websync)
    (attr : String × String) : List String :=
  if excludeHit w attr.2 then []
  else if (attr.1 == "href") &&
      !(strStartsWith attr.2 "/" || strStartsWith attr.2 "?" ||
        strStartsWith attr.2 "http") then
    if strEndsWith attr.2 "/" || strEndsWith attr.2 "html" then
      if w.recursive then recurse (urljoin w.base_url (strTrim attr.2)) else []
    else
      if includeOk w attr.2 then [urljoin w.base_url (strTrim attr.2)] else []
  else []

/-- Model of `websync.find_download_links` (scrape.py lines 130-158):
the links appended while processing one anchor tag, in order. -/
def find_download_links (recurse : String → List String) (w : Websync)
    (attrs : List (String × String)) : List String :=
  attrs.flatMap (attrContrib recurse w)

/-- The links a whole listing page contributes: each anchor processed in
document order. -/
def page_contrib (recurse : String → List String) (w : Websync)
    (anchors : List (List (String × String))) : List String :=
  anchors.flatMap (find_download_links recurse w)

/-- Model of `websync.ls` (scrape.py lines 160-171) composed with the
recursive `find_download_links` traversal: `ls` first overwrites
`self.recursive` with its own argument (default True), then fetches the
base URL; connection errors, timeouts and non-200 statuses contribute
nothing.  `fuel` bounds the recursion depth, which the source does not
(a listing that links back to an ancestor recurses forever). -/
def ls_links (cs : String → Pattern) (site : Site) :
    Nat → Websync → Bool → List String
  | 0, _, _ => []
  | fuel + 1, w, recursive =>
    let w1 : Websync := { w with recursive := recursive }
    match site w1.base_url with
    | .netError => []
    | .response status anchors =>
      if status == 200 then
        page_contrib
          (fun u => ls_links cs site fuel (childWebsync cs w1 u) true) w1 anchors
      else []

/-- The links of the base page alone, directory references ignored:
what a non-recursive `ls` pass returns. -/
def base_leaf_links (site : Site) (w : Websync) : List String :=
  match site w.base_url with
  | .netError => []
  | .response status anchors =>
    if status == 200 then
      page_contrib (fun _ => []) { w with recursive := false } anchors
    else []

/-- Bool version of "this fetch yields no usable listing": a connection
error, a timeout, or a non-200 status. -/
def fetchFailed : FetchResult → Bool
  | .netError => true
  | .response status _ => status != 200

/-! ### Local filesystem and path model -/

/-- A local file: its stored bytes, whether they were written through
`gzip.open`, and its access and modification times (Unix seconds). -/
structure FileRec where
  data : String
  gzipped : Bool
  atime : Int
  mtime : Int
deriving DecidableEq

/-- The local filesystem: files by path, plus which directories exist. -/
structure FS where
  files : String → Option FileRec
  dirs : String → Bool

/-- Model of `pathlib.Path(part, ...)`: empty segments vanish and the
rest are joined with slashes. -/
def pathJoin (parts : List String) : String :=
  joinWith "/" (parts.filter (fun s => s != ""))

/-- The last path segment (`Path.name`). -/
def lastSegment (p : String) : String :=
  ⟨(p.data.reverse.takeWhile (fun c => c != '/')).reverse⟩

/-- Model of `Path.parent` as a string: everything before the last
slash. -/
def parentDir (p : String) : String :=
  (urlDirOf p).dropRight 1

/-- Model of `Path.suffix`: the final extension including its dot, empty
when the name has no dot past its first character. -/
def pathSuffix (p : String) : String :=
  let name := (lastSegment p).data
  let ext := name.reverse.takeWhile (fun c => c != '.')
  if ext.length < name.length && 1 < name.length - ext.length then
    ⟨'.' :: ext.reverse⟩
  else ""

/-- The chain of directories `mkdir(parents=True)` ensures for `p`:
every slash-boundary ancestor, outermost first. -/
def dirChain (p : String) : List String :=
  let root := if strStartsWith p "/" then "/" else ""
  let segs := (strSplitOnChar '/' p).filter (fun s => s != "")
  (List.range segs.length).map
    (fun i => root ++ joinWith "/" (segs.take (i + 1)))

/-- Model of `local_path.parent.mkdir(parents=True, exist_ok=True)`. -/
def mkdirParents (target : String) (fs : FS) : FS :=
  { fs with dirs := fun d => fs.dirs d || (dirChain (parentDir target)).contains d }

/-- Writing a file: a fresh write stamps both times with the wall clock
`now`; `gz` records that the bytes went through `gzip.open`. -/
def writeFile (path : String) (gz : Bool) (content : String) (now : Int)
    (fs : FS) : FS :=
  { fs with files := fun q => if q = path then some ⟨content, gz, now, now⟩ else fs.files q }

/-- Model of `os.utime(path, (atime, mtime))`. -/
def setTimes (path : String) (atime mtime : Int) (fs : FS) : FS :=
  { fs with files := fun q =>
      if q = path then (fs.files q).map (fun r => { r with atime := atime, mtime := mtime })
      else fs.files q }

/-! ### sync_files and cp (scrape.py lines 173-231) -/

/-- Result of `session.get(remote_url)` inside `sync_files`:
`connError` covers ConnectionError and Timeout, `decodeError` is
requests ContentDecodingError. -/
inductive NetResult where
  | response (status : Nat) (lastModified : Option String) (content : String)
  | connError
  | decodeError
deriving DecidableEq

/-- How `websync.sync_files` finishes.  The source both *raises*
RuntimeError (decode failure, non-200 status) and *returns* the
RuntimeError class as a value (connection error, line 218), and a
missing Last-Modified header raises KeyError after the body has been
written; all five exits are distinguished. -/
inductive SyncRet where
  | retNone
  | retRuntimeErrorClass
  | exnRuntimeDecode
  | exnRuntimeStatus (status : Nat)
  | exnKeyError
deriving DecidableEq

/-- Model of `websync.sync_files` (scrape.py lines 206-231).  `parse`
models `dateutil.parser.parse(...).timestamp()` and `now` models
`datetime.utcnow().timestamp()`. -/
def sync_files (parse : String → Int) (now : Int) (net : String → NetResult)
    (remote_url local_path : String) (fs : FS) : FS × SyncRet :=
  match net remote_url with
  | .decodeError => (fs, .exnRuntimeDecode)
  | .connError => (fs, .retRuntimeErrorClass)
  | .response status lastMod content =>
    if status == 200 then
      let fs1 := mkdirParents local_path fs
      let fs2 := writeFile local_path (strEndsWith (pathSuffix local_path) "gz")
        content now fs1
      match lastMod with
      | none => (fs2, .exnKeyError)
      | some lm => (setTimes local_path now (parse lm) fs2, .retNone)
    else (fs, .exnRuntimeStatus status)

/-- Python exceptions escaping `cp`. -/
inductive PyExn where
  | attributeError
  | keyError
deriving DecidableEq

/-- The local path `cp` computes for a link (scrape.py lines 179-188). -/
def cp_outpath (w : Websync) (link : String) : String :=
  let split_result :=
    if w.no_parents then urlsplit (strReplace link w.base_url "")
    else urlsplit link
  let topdir := strReplace split_result.netloc "." "_"
  pathJoin (w.download_location :: topdir :: strSplitOnChar '/' split_result.path)

/-- Model of `websync.cp` (scrape.py lines 173-204).  When the local
file is absent, `sync_files` runs: an exception `raise RuntimeError` is
caught and `cp` returns None, while the `return RuntimeError` taken on
a connection error is *not* an exception, so `cp` falls through and
returns the path although nothing was written.  When the local file
exists, the `elif self.update_existing:` test reads an attribute that
`__init__` never assigned, so `cp` raises AttributeError and the HEAD
request, the Last-Modified comparison and the conditional re-transfer
in that branch are unreachable. -/
def cp (parse : String → Int) (now : Int) (net : String → NetResult)
    (w : Websync) (link : String) (fs : FS) :
    FS × Except PyExn (Option String) :=
  let outpath := cp_outpath w link
  if (fs.files outpath).isNone then
    match sync_files parse now net link outpath fs with
    | (fs1, .retNone) => (fs1, .ok (some outpath))
    | (fs1, .retRuntimeErrorClass) => (fs1, .ok (some outpath))
    | (fs1, .exnRuntimeDecode) => (fs1, .ok none)
    | (fs1, .exnRuntimeStatus _) => (fs1, .ok none)
    | (fs1, .exnKeyError) => (fs1, .error .keyError)
  else (fs, .error .attributeError)

/-! ### The scraper driver (scrape.py lines 238-297) -/

/-- The result-processing loop of `scraper.scrape`
(scrape.py lines 255-262), completion order abstracted as list order:
for each finished `cp` the loop re-raises its exception (stopping the
loop), skips None results, and otherwise invokes the callback, whose
own exceptions are caught and logged — `callback_raises` is therefore
never consulted.  Returns the paths the callback was invoked on and
the first re-raised exception, if any. -/
def process_results (callback_raises : String → Bool) (has_callback : Bool) :
    List (Except PyExn (Option String)) → List String × Option PyExn
  | [] => ([], none)
  | .error e :: _ => ([], some e)
  | .ok none :: rest => process_results callback_raises has_callback rest
  | .ok (some p) :: rest =>
    let r := process_results callback_raises has_callback rest
    (if has_callback then p :: r.1 else r.1, r.2)

/-- The non-None payloads of the results before the first exception. -/
def okPathsUntilErr : List (Except PyExn (Option String)) → List String
  | [] => []
  | .error _ :: _ => []
  | .ok none :: rest => okPathsUntilErr rest
  | .ok (some p) :: rest => p :: okPathsUntilErr rest

/-- The first exception among the results. -/
def firstErrPy : List (Except PyExn (Option String)) → Option PyExn
  | [] => none
  | .error e :: _ => some e
  | .ok _ :: rest => firstErrPy rest

/-- `scrape` and `keep_scraping` both append a trailing slash when the
url lacks one (scrape.py lines 242-243, 270-271). -/
def normalize_url (url : String) : String :=
  if strEndsWith url "/" then url else url ++ "/"

/-- What one iteration of `keep_scraping` decides and does. -/
structure StepResult where
  ran_transfer : Bool
  submitted : List String
  most_recent : List String
deriving DecidableEq

/-- Model of one iteration of `scraper.keep_scraping`
(scrape.py lines 274-297): build a fresh `websync` from the
configuration, run `ls(recursive=True)`, and only when the discovered
list differs from the previous pass submit every link to `cp` and
record the new list; otherwise do no per-link work.  The fixed
`time.sleep` closing each iteration has no modelled effect. -/
def keep_scraping_step (cs : String → Pattern) (site : Site) (fuel : Nat)
    (url download_location : String) (regex_exclude regex_include : Option ReArg)
    (recursive no_parents : Bool) (most_recent_files : List String) : StepResult :=
  let parser := websyncInit cs (normalize_url url) download_location
    regex_exclude regex_include recursive no_parents
  let links := ls_links cs site fuel parser true
  if links ≠ most_recent_files then
    { ran_transfer := true, submitted := links, most_recent := links }
  else
    { ran_transfer := false, submitted := [], most_recent := most_recent_files }

/-! ### Concrete fixtures used by witnesses and counterexamples -/

/-- A regex compiler whose patterns never match. -/
def cs0 : String → Pattern := fun _ => fun _ => false

/-- A regex compiler that compiles `s` to "input starts with s", the
anchored behaviour of `re.match` on a literal pattern. -/
def csPre : String → Pattern := fun s => fun t => strStartsWith t s

/-- An empty local filesystem. -/
def fsEmpty : FS := ⟨fun _ => none, fun _ => false⟩

/-- A filesystem on which every path is an existing file. -/
def fsFull : FS := ⟨fun _ => some ⟨"old", false, 0, 0⟩, fun _ => false⟩

/-- A plain crawler for base url "b/" with no filters. -/
def wBase : Websync := websyncInit cs0 "b/" "./" none none true false

/-- A crawler whose exclusion pattern matches references starting
with "x". -/
def c2w : Websync := websyncInit csPre "b/" "./" (some (.fromStr "x")) none true false

/-- A crawler whose inclusion pattern matches references starting
with "inc". -/
def c4w : Websync := websyncInit csPre "b/" "./" none (some (.fromStr "inc")) true false

/-- A site whose only page, "b/", holds a single anchor with an empty
href. -/
def c3site : Site := fun u =>
  if u = "b/" then .response 200 [[("href", "")]] else .netError

/-- A site with a root page "P/" linking a subdirectory that answers
404 and a plain leaf file. -/
def c5site : Site := fun u =>
  if u = "P/" then .response 200 [[("href", "bad/")], [("href", "ok.DAT")]]
  else if u = "P/bad/" then .response 404 []
  else .netError

/-- The crawler `find_download_links` would spawn for "P/bad/". -/
def c5wFail : Websync := websyncInit cs0 "P/bad/" "./" none none true false

/-- The root crawler for the `c5site` fixture. -/
def c5parent : Websync := websyncInit cs0 "P/" "./" none none true false

/-- A network where "a" answers 200 with a Last-Modified header, "b"
answers 404, and everything else fails to connect. -/
def netC6 : String → NetResult := fun u =>
  if u = "a" then .response 200 (some "LM") "body"
  else if u = "b" then .response 404 none "x"
  else .connError

/-- A site with a root page "B/" holding one subdirectory link, whose
page holds one leaf file. -/
def c10site : Site := fun u =>
  if u = "B/" then .response 200 [[("href", "sub/")]]
  else if u = "B/sub/" then .response 200 [[("href", "f.DAT")]]
  else .netError

/-- A crawler for `c10site` constructed with `recursive := false`. -/
def c10w : Websync := websyncInit cs0 "B/" "./" none none false false

/-! ### Helper lemmas -/

/-- When a crawler is non-recursive, the attribute contribution never
consults the recursion function. -/
theorem attrContrib_nonrecursive (r1 r2 : String → List String)
    (w : Websync) (hw : w.recursive = false) (a : String × String) :
    attrContrib r1 w a = attrContrib r2 w a := by
  simp [attrContrib, hw]

/-- When a crawler is non-recursive, a whole page contribution never
consults the recursion function. -/
theorem page_contrib_nonrecursive (r1 r2 : String → List String)
    (w : Websync) (hw : w.recursive = false)
    (anchors : List (List (String × String))) :
    page_contrib r1 w anchors = page_contrib r2 w anchors := by
  have h2 : attrContrib r1 w = attrContrib r2 w :=
    funext (attrContrib_nonrecursive r1 r2 w hw)
  have h3 : find_download_links r1 w = find_download_links r2 w := by
    funext attrs
    show attrs.flatMap (attrContrib r1 w) = attrs.flatMap (attrContrib r2 w)
    rw [h2]
  show anchors.flatMap (find_download_links r1 w) =
    anchors.flatMap (find_download_links r2 w)
  rw [h3]

/-! ### Claim C1 -/

/-- Claim C1 (code behaviour at the failing input): whenever the local
file computed for a link already exists, `cp` raises AttributeError
instead of issuing the HEAD request and comparing timestamps, because
`__init__` accepts `update_existing` but never assigns
`self.update_existing`; the claimed staleness comparison is
unreachable.  The repository's own tests `test_cp_nodownload` and
`test_cp_download_newer_file` exercise exactly this path and expect the
comparison to happen. -/
theorem c1_cp_existing_file_attribute_error (parse : String → Int)
    (now : Int) (net : String → NetResult) (w : Websync) (link : String)
    (fs : FS) (h : (fs.files (cp_outpath w link)).isSome = true) :
    cp parse now net w link fs = (fs, .error .attributeError) := by
  cases hf : fs.files (cp_outpath w link) with
  | none => rw [hf] at h; simp at h
  | some r => simp [cp, hf]

/-- Witness for C1: a concrete crawler, link and filesystem on which
the local file exists, evaluated through the theorem. -/
theorem c1_witness :
    cp (fun _ => 0) 0 (fun _ => NetResult.connError) wBase "b/f" fsFull =
      (fsFull, .error .attributeError) :=
  c1_cp_existing_file_attribute_error (fun _ => 0) 0 (fun _ => .connError)
    wBase "b/f" fsFull rfl

/-! ### Claim C2 -/

/-- Claim C2: for every configured exclusion pattern and every anchor
attribute whose raw (unresolved) value the pattern matches, the
attribute contributes nothing to the result list — for any recursion
behaviour, so an excluded directory subtree is never visited — and the
anchor is processed as if the attribute were absent.  The statement
quantifies over the attribute name and both suffix shapes, showing the
exclusion check precedes every other classification rule. -/
theorem c2_exclusion_applied_first (w : Websync) (p : Pattern)
    (hw : w.exclude_match = some p) (name ref : String) (hm : p ref = true)
    (recurse : String → List String)
    (attrs1 attrs2 : List (String × String)) :
    attrContrib recurse w (name, ref) = [] ∧
    find_download_links recurse w (attrs1 ++ (name, ref) :: attrs2) =
      find_download_links recurse w (attrs1 ++ attrs2) := by
  have h1 : attrContrib recurse w (name, ref) = [] := by
    simp [attrContrib, excludeHit, hw, hm]
  refine ⟨h1, ?_⟩
  simp [find_download_links, h1]

/-- Witness for C2: the pattern "x" excludes the directory reference
"xfile/" even though a recursion function is supplied. -/
theorem c2_witness :
    attrContrib (fun _ => ["boom"]) c2w ("href", "xfile/") = [] ∧
    find_download_links (fun _ => ["boom"]) c2w
        ([("alt", "y")] ++ ("href", "xfile/") :: [("href", "a.DAT")]) =
      find_download_links (fun _ => ["boom"]) c2w ([("alt", "y")] ++ [("href", "a.DAT")]) :=
  c2_exclusion_applied_first c2w (csPre "x") rfl "href" "xfile/" (by decide)
    (fun _ => ["boom"]) [("alt", "y")] [("href", "a.DAT")]

/-! ### Claim C3 -/

/-- Claim C3 counterexample: the claim says an empty anchor reference is
neither followed nor included, but `find_download_links` has no empty
check — an empty href falls through every prefix test, is classified as
a leaf, and `urljoin` resolves it to the base URL itself, which is
returned. -/
theorem c3_counterexample :
    ls_links cs0 c3site 1 wBase true = ["b/"] ∧
    ls_links cs0 c3site 1 wBase true ≠ [] := by
  constructor <;> decide

/-- Claim C3 (amended): an anchor reference starting with "/", "?", or
"http" is neither followed nor returned — the anchor is processed as if
the attribute were absent.  (An empty reference, by contrast, is kept
as a leaf resolving to the base URL, as the counterexample shows.) -/
theorem c3_amended_absolute_refs_ignored (w : Websync)
    (recurse : String → List String) (ref : String)
    (h : (strStartsWith ref "/" || strStartsWith ref "?" ||
      strStartsWith ref "http") = true)
    (attrs1 attrs2 : List (String × String)) :
    attrContrib recurse w ("href", ref) = [] ∧
    find_download_links recurse w (attrs1 ++ ("href", ref) :: attrs2) =
      find_download_links recurse w (attrs1 ++ attrs2) := by
  have h1 : attrContrib recurse w ("href", ref) = [] := by
    by_cases hex : excludeHit w ref
    · simp [attrContrib, hex]
    · simp [attrContrib, hex, h]
  refine ⟨h1, ?_⟩
  simp [find_download_links, h1]

/-- Witness for the amended C3: a site-absolute reference "/abs" is
dropped while its sibling leaf is unaffected. -/
theorem c3_witness :
    attrContrib (fun _ => ["boom"]) wBase ("href", "/abs") = [] ∧
    find_download_links (fun _ => ["boom"]) wBase
        ([("href", "ok.DAT")] ++ ("href", "/abs") :: []) =
      find_download_links (fun _ => ["boom"]) wBase [("href", "ok.DAT")] :=
  c3_amended_absolute_refs_ignored wBase (fun _ => ["boom"]) "/abs" (by decide)
    [("href", "ok.DAT")] []

/-! ### Claim C4 -/

/-- Claim C4: for a reference that survives exclusion and the prefix
tests, if it is a leaf (no directory suffix) it is kept exactly when
the inclusion pattern is absent or matches the raw reference — the
resolved link is in the contribution iff `includeOk` holds on the raw
reference — while a directory reference is processed identically under
any two inclusion patterns, i.e. inclusion never filters recursion. -/
theorem c4_inclusion_only_on_leaves (w : Websync)
    (recurse : String → List String) (ref : String)
    (hex : excludeHit w ref = false)
    (hpre : (strStartsWith ref "/" || strStartsWith ref "?" ||
      strStartsWith ref "http") = false) :
    ((strEndsWith ref "/" || strEndsWith ref "html") = false →
      (urljoin w.base_url (strTrim ref) ∈ attrContrib recurse w ("href", ref) ↔
        includeOk w ref = true) ∧
      attrContrib recurse w ("href", ref) =
        (if includeOk w ref then [urljoin w.base_url (strTrim ref)] else [])) ∧
    ((strEndsWith ref "/" || strEndsWith ref "html") = true →
      ∀ inc1 inc2 : Option Pattern,
        attrContrib recurse { w with include_match := inc1 } ("href", ref) =
          attrContrib recurse { w with include_match := inc2 } ("href", ref)) := by
  constructor
  · intro hdir
    have hc : attrContrib recurse w ("href", ref) =
        (if includeOk w ref then [urljoin w.base_url (strTrim ref)] else []) := by
      simp [attrContrib, hex, hpre, hdir]
    refine ⟨?_, hc⟩
    rw [hc]
    by_cases hinc : includeOk w ref <;> simp [hinc]
  · intro hdir inc1 inc2
    have hex1 : excludeHit { w with include_match := inc1 } ref = false := hex
    have hex2 : excludeHit { w with include_match := inc2 } ref = false := hex
    simp [attrContrib, hex1, hex2, hpre, hdir]

/-- Witness for C4: with inclusion pattern "inc", the leaf
"incfile.DAT" is kept iff it matches, and the directory "sub/" is
treated the same under any two inclusion patterns. -/
theorem c4_witness :
    ((urljoin c4w.base_url (strTrim "incfile.DAT") ∈
        attrContrib (fun _ => []) c4w ("href", "incfile.DAT") ↔
      includeOk c4w "incfile.DAT" = true) ∧
     attrContrib (fun _ => []) c4w ("href", "incfile.DAT") =
       (if includeOk c4w "incfile.DAT" then
         [urljoin c4w.base_url (strTrim "incfile.DAT")] else [])) ∧
    (∀ inc1 inc2 : Option Pattern,
      attrContrib (fun _ => []) { c4w with include_match := inc1 } ("href", "sub/") =
        attrContrib (fun _ => []) { c4w with include_match := inc2 } ("href", "sub/")) :=
  ⟨(c4_inclusion_only_on_leaves c4w (fun _ => []) "incfile.DAT" rfl (by decide)).1
      (by decide),
   (c4_inclusion_only_on_leaves c4w (fun _ => []) "sub/" rfl (by decide)).2
      (by decide)⟩

/-! ### Claim C5 -/

/-- Claim C5: a listing fetch that yields a connection error, a timeout
or a non-200 status makes that subtree contribute zero links — `ls`
returns normally, modelled by `ls_links` being total — and the links of
a parent page decompose anchor by anchor, so sibling subtrees are
discovered unaffected. -/
theorem c5_failed_listing_fetch (cs : String → Pattern) (site : Site)
    (fuel : Nat) (w : Websync) (rec : Bool)
    (hfail : fetchFailed (site w.base_url) = true)
    (parent : Websync) (fuel2 : Nat) (rec2 : Bool)
    (as1 as2 : List (List (String × String)))
    (hp : site parent.base_url = .response 200 (as1 ++ as2)) :
    ls_links cs site fuel w rec = [] ∧
    ls_links cs site (fuel2 + 1) parent rec2 =
      page_contrib (fun u => ls_links cs site fuel2
          (childWebsync cs { parent with recursive := rec2 } u) true)
        { parent with recursive := rec2 } as1 ++
      page_contrib (fun u => ls_links cs site fuel2
          (childWebsync cs { parent with recursive := rec2 } u) true)
        { parent with recursive := rec2 } as2 := by
  constructor
  · cases fuel with
    | zero => rfl
    | succ n =>
      cases hsite : site w.base_url with
      | netError => simp [ls_links, hsite]
      | response status anchors =>
        rw [hsite] at hfail
        simp only [fetchFailed, bne_iff_ne, ne_eq] at hfail
        simp [ls_links, hsite, hfail]
  · simp [ls_links, hp, page_contrib, List.flatMap_append]

/-- Witness for C5: in `c5site` the subdirectory "P/bad/" answers 404;
its crawler yields no links, and the root page's links are the
concatenation of its two anchors' contributions. -/
theorem c5_witness :
    ls_links cs0 c5site 3 c5wFail true = [] ∧
    ls_links cs0 c5site (1 + 1) c5parent true =
      page_contrib (fun u => ls_links cs0 c5site 1
          (childWebsync cs0 { c5parent with recursive := true } u) true)
        { c5parent with recursive := true } [[("href", "bad/")]] ++
      page_contrib (fun u => ls_links cs0 c5site 1
          (childWebsync cs0 { c5parent with recursive := true } u) true)
        { c5parent with recursive := true } [[("href", "ok.DAT")]] :=
  c5_failed_listing_fetch cs0 c5site 3 c5wFail true (by decide)
    c5parent 1 true [[("href", "bad/")]] [[("href", "ok.DAT")]] (by decide)

/-! ### Claim C6 -/

/-- Claim C6: `sync_files` on an HTTP 200 response creates the missing
parent directories of the local path, writes the body there (through
gzip exactly when the path's final extension ends in "gz"), leaves
every other file alone, and sets the modification time to exactly the
parsed Last-Modified value (access time to the wall clock); on a
non-200 status it raises RuntimeError carrying the status and writes
nothing; on a connection error or timeout it returns without raising
and writes nothing. -/
theorem c6_sync_files_contract (parse : String → Int) (now : Int)
    (net : String → NetResult) (u1 u2 u3 p1 p2 p3 : String)
    (fsa fsb fsc : FS) (lm content : String) (status : Nat)
    (lm2 : Option String) (content2 : String)
    (h1 : net u1 = .response 200 (some lm) content)
    (h2 : net u2 = .response status lm2 content2) (hs : status ≠ 200)
    (h3 : net u3 = .connError) :
    ((sync_files parse now net u1 p1 fsa).2 = .retNone ∧
     (sync_files parse now net u1 p1 fsa).1.files p1 =
       some ⟨content, strEndsWith (pathSuffix p1) "gz", now, parse lm⟩ ∧
     (∀ q, q ≠ p1 → (sync_files parse now net u1 p1 fsa).1.files q = fsa.files q) ∧
     (sync_files parse now net u1 p1 fsa).1.dirs =
       (fun d => fsa.dirs d || (dirChain (parentDir p1)).contains d)) ∧
    sync_files parse now net u2 p2 fsb = (fsb, .exnRuntimeStatus status) ∧
    sync_files parse now net u3 p3 fsc = (fsc, .retRuntimeErrorClass) := by
  refine ⟨⟨?_, ?_, ?_, ?_⟩, ?_, ?_⟩
  · simp [sync_files, h1]
  · simp [sync_files, h1, setTimes, writeFile, mkdirParents]
  · intro q hq
    simp [sync_files, h1, setTimes, writeFile, mkdirParents, hq]
  · simp [sync_files, h1, setTimes, writeFile, mkdirParents]
  · simp [sync_files, h2, hs]
  · simp [sync_files, h3]

/-- Witness for C6: the three network outcomes of `netC6` evaluated
through the theorem on concrete paths, including a ".gz" target. -/
theorem c6_witness :
    ((sync_files (fun _ => 42) 7 netC6 "a" "d/f.gz" fsEmpty).2 = .retNone ∧
     (sync_files (fun _ => 42) 7 netC6 "a" "d/f.gz" fsEmpty).1.files "d/f.gz" =
       some ⟨"body", strEndsWith (pathSuffix "d/f.gz") "gz", 7, (fun _ => 42) "LM"⟩ ∧
     (∀ q, q ≠ "d/f.gz" →
       (sync_files (fun _ => 42) 7 netC6 "a" "d/f.gz" fsEmpty).1.files q =
         fsEmpty.files q) ∧
     (sync_files (fun _ => 42) 7 netC6 "a" "d/f.gz" fsEmpty).1.dirs =
       (fun d => fsEmpty.dirs d || (dirChain (parentDir "d/f.gz")).contains d)) ∧
    sync_files (fun _ => 42) 7 netC6 "b" "p2" fsEmpty =
      (fsEmpty, .exnRuntimeStatus 404) ∧
    sync_files (fun _ => 42) 7 netC6 "c" "p3" fsEmpty =
      (fsEmpty, .retRuntimeErrorClass) :=
  c6_sync_files_contract (fun _ => 42) 7 netC6 "a" "b" "c" "d/f.gz" "p2" "p3"
    fsEmpty fsEmpty fsEmpty "LM" "body" 404 none "x"
    (by decide) (by decide) (by decide) (by decide)

/-! ### Claim C7 -/

/-- Claim C7 counterexample: the callback is not invoked only for links
whose transfer wrote a file.  On a connection error `sync_files`
executes `return RuntimeError` — a returned value, not a raised
exception — so `cp` falls through, reports the output path although the
filesystem was not touched, and the result loop invokes the callback on
that path. -/
theorem c7_counterexample :
    (cp (fun _ => 0) 0 (fun _ => NetResult.connError) wBase "b/f" fsEmpty).2 =
      .ok (some (cp_outpath wBase "b/f")) ∧
    (cp (fun _ => 0) 0 (fun _ => NetResult.connError) wBase "b/f" fsEmpty).1.files
      (cp_outpath wBase "b/f") = none ∧
    (process_results (fun _ => false) true
        [(cp (fun _ => 0) 0 (fun _ => NetResult.connError) wBase "b/f" fsEmpty).2]).1 =
      [cp_outpath wBase "b/f"] :=
  ⟨rfl, rfl, rfl⟩

/-- Claim C7 (amended): the per-transfer callback is invoked exactly on
the non-None paths `cp` returned (transfers that wrote a file, but also
new-file transfers abandoned on a connection error) up to the first
re-raised `cp` exception, and a callback that raises is caught and
logged: the loop's outcome is independent of which callback invocations
fail, so a callback failure never aborts the pass. -/
theorem c7_amended_callback_behavior (f g : String → Bool)
    (rs : List (Except PyExn (Option String))) :
    process_results f true rs = (okPathsUntilErr rs, firstErrPy rs) ∧
    process_results f true rs = process_results g true rs := by
  induction rs with
  | nil => exact ⟨rfl, rfl⟩
  | cons x rest ih =>
    cases x with
    | error e => exact ⟨rfl, rfl⟩
    | ok o =>
      obtain ⟨ih1, ih2⟩ := ih
      cases o with
      | none =>
        exact ⟨ih1, ih2⟩
      | some p =>
        constructor
        · simp [process_results, okPathsUntilErr, firstErrPy, ih1]
        · simp [process_results, ih2]

/-! ### Claim C8 -/

/-- Claim C8: one `keep_scraping` iteration runs the transfer phase iff
the freshly discovered link list differs from the previous pass's list
under exact sequence equality; when the lists are equal the iteration
submits no per-link work and leaves the remembered list unchanged, and
when they differ every discovered link is submitted and the list is
remembered. -/
theorem c8_continuous_mode_comparison (cs : String → Pattern) (site : Site)
    (fuel : Nat) (url dl : String) (rex rin : Option ReArg)
    (rec np : Bool) (mr : List String) :
    ((keep_scraping_step cs site fuel url dl rex rin rec np mr).ran_transfer = true ↔
      ls_links cs site fuel (websyncInit cs (normalize_url url) dl rex rin rec np) true ≠ mr) ∧
    (ls_links cs site fuel (websyncInit cs (normalize_url url) dl rex rin rec np) true = mr →
      keep_scraping_step cs site fuel url dl rex rin rec np mr =
        { ran_transfer := false, submitted := [], most_recent := mr }) ∧
    (ls_links cs site fuel (websyncInit cs (normalize_url url) dl rex rin rec np) true ≠ mr →
      keep_scraping_step cs site fuel url dl rex rin rec np mr =
        { ran_transfer := true
          submitted := ls_links cs site fuel
            (websyncInit cs (normalize_url url) dl rex rin rec np) true
          most_recent := ls_links cs site fuel
            (websyncInit cs (normalize_url url) dl rex rin rec np) true }) := by
  by_cases h : ls_links cs site fuel
      (websyncInit cs (normalize_url url) dl rex rin rec np) true = mr <;>
    simp [keep_scraping_step, h]

/-- Witness for C8: against an unreachable site the discovered list is
empty, so the iteration transfers when the previous list was nonempty
and is quiescent when it was already empty. -/
theorem c8_witness :
    keep_scraping_step cs0 (fun _ => FetchResult.netError) 1 "u" "./"
        none none true false ["x"] =
      { ran_transfer := true, submitted := [], most_recent := [] } ∧
    keep_scraping_step cs0 (fun _ => FetchResult.netError) 1 "u" "./"
        none none true false [] =
      { ran_transfer := false, submitted := [], most_recent := [] } :=
  ⟨(c8_continuous_mode_comparison cs0 (fun _ => FetchResult.netError) 1 "u" "./"
      none none true false ["x"]).2.2 (by decide),
   (c8_continuous_mode_comparison cs0 (fun _ => FetchResult.netError) 1 "u" "./"
      none none true false []).2.1 (by decide)⟩

/-! ### Claim C9 -/

/-- Claim C9: the child crawler spawned for a directory reference holds
exactly the parent's compiled exclusion and inclusion patterns —
`re.compile` returns an already compiled pattern unchanged, so the same
filters govern every page of one recursive traversal. -/
theorem c9_child_inherits_patterns (cs : String → Pattern) (w : Websync)
    (sub_url : String) :
    (childWebsync cs w sub_url).exclude_match = w.exclude_match ∧
    (childWebsync cs w sub_url).include_match = w.include_match := by
  refine ⟨?_, ?_⟩
  · cases h : w.exclude_match with
    | none => simp [childWebsync, websyncInit, matchSetter, h]
    | some p => simp [childWebsync, websyncInit, matchSetter, reCompile, h]
  · cases h : w.include_match with
    | none => simp [childWebsync, websyncInit, matchSetter, h]
    | some p => simp [childWebsync, websyncInit, matchSetter, reCompile, h]

/-! ### Claim C10 -/

/-- Claim C10 counterexample: a websync constructed with
`recursive := false` still follows directory references, because `ls`
overwrites `self.recursive` with its own argument, which defaults to
True and which `scraper.scrape` passes as True.  On `c10site` the
configured-non-recursive crawler returns the leaf found inside the
subdirectory, while the claim predicts only the base page's leaves
(here none). -/
theorem c10_counterexample :
    c10w.recursive = false ∧
    ls_links cs0 c10site 2 c10w true = ["B/sub/f.DAT"] ∧
    base_leaf_links c10site c10w = [] := by
  refine ⟨rfl, by decide, by decide⟩

/-- Claim C10 (amended): recursion is governed by the `recursive`
argument of `ls`, which overwrites the constructor flag; when `ls` is
called with `recursive = false`, discovery does not follow directory
references and returns exactly the leaf links of the base page itself,
whatever the constructor flag was. -/
theorem c10_amended_nonrecursive_ls (cs : String → Pattern) (site : Site)
    (fuel : Nat) (w : Websync) :
    ls_links cs site (fuel + 1) w false = base_leaf_links site w := by
  cases hs : site w.base_url with
  | netError => simp [ls_links, base_leaf_links, hs]
  | response status anchors =>
    by_cases h200 : status == 200
    · simp only [ls_links, base_leaf_links, hs, h200, if_true]
      exact page_contrib_nonrecursive _ _ _ rfl anchors
    · simp [ls_links, base_leaf_links, hs, h200]

end WebScraper
